import Mathlib

/-!
Verification of the fake-news-detector pipeline (src/app.py) against its
natural-language specification.

The embedding models the core pipeline of app.py:
  * extract_text_from_url (app.py lines 39-57) with its two fallback
    methods newspaper_extract (59-64) and bs4_extract (66-71);
  * classify_article (31-36) over the module-level model and vectorizer
    loaded once at line 28;
  * the analysis flow of main (162-188): blank-input guard, model call,
    confidence = max probability, label Real iff prediction == 1.
External effects (network fetches, the article parser, the pickled model)
are modelled as explicit parameters: a Network record supplies what the
newspaper3k extractor and the raw HTML fetch would return for a URL
(errors standing for raised exceptions), and a Model record supplies the
vectorizer transform and the predict / predict_proba functions of the
loaded classifier.  Probabilities are rationals.
-/

namespace FakeNewsApp

/-- ASCII whitespace as recognised by Python str.split() and str.strip()
with no arguments (space, tab, newline, carriage return, vertical tab,
form feed). -/
def pyIsSpace (c : Char) : Bool :=
  c == ' ' || c == '\t' || c == '\n' || c == '\r' || c == '\x0b' || c == '\x0c'

/-- Helper for pySplit: accumulates the current word (reversed) and cuts
at whitespace, discarding empty chunks, exactly as Python str.split()
with no separator does. -/
def splitWordsAux : List Char → List Char → List (List Char)
  | [], cur => if cur = [] then [] else [cur.reverse]
  | c :: cs, cur =>
    if pyIsSpace c then
      if cur = [] then splitWordsAux cs []
      else cur.reverse :: splitWordsAux cs []
    else splitWordsAux cs (c :: cur)

/-- Python str.split() with no arguments: split on runs of whitespace,
no empty words. -/
def pySplit (s : String) : List String :=
  (splitWordsAux s.toList []).map (fun l => String.mk l)

/-- len(text.split()) in the Python source. -/
def wordCount (s : String) : Nat := (pySplit s).length

/-- Python truth of (not s.strip()): every character is whitespace
(including the empty string). -/
def pyBlank (s : String) : Bool := s.toList.all pyIsSpace

/-- Python str.lower() restricted to the characters that occur in our
inputs (Char.toLower handles ASCII as Python does). -/
def pyLower (s : String) : String := String.mk (s.toList.map Char.toLower)

/-- Does pat occur at the head of l? -/
def subAt : List Char → List Char → Bool
  | [], _ => true
  | _ :: _, [] => false
  | a :: as, b :: bs => a == b && subAt as bs

/-- Does pat occur anywhere in l (Python substring containment)? -/
def hasSub (pat : List Char) : List Char → Bool
  | [] => pat.isEmpty
  | c :: rest => subAt pat (c :: rest) || hasSub pat rest

/-- Case-insensitive substring test, lower-casing the haystack as the
spec's heuristic overlay describes. -/
def containsKeyword (kw : String) (s : String) : Bool :=
  hasSub kw.toList (pyLower s).toList

/-- A parsed HTML document as BeautifulSoup exposes it: element nodes
with a tag name and children, and text nodes. -/
inductive HtmlNode where
  | elem (tag : String) (children : List HtmlNode)
  | txt (s : String)

mutual

/-- BeautifulSoup get_text(): concatenation of all text in the subtree. -/
def getText : HtmlNode → String
  | .txt s => s
  | .elem _ cs => getTextList cs

/-- get_text over a list of children, in order. -/
def getTextList : List HtmlNode → String
  | [] => ""
  | n :: ns => getText n ++ getTextList ns

end

mutual

/-- BeautifulSoup find_all(tag): all elements with the given tag, in
document (pre-)order, the node itself included when it matches. -/
def findAll (tag : String) : HtmlNode → List HtmlNode
  | .txt _ => []
  | .elem t cs => (if t == tag then [HtmlNode.elem t cs] else []) ++ findAllList tag cs

/-- find_all over a list of sibling nodes, in order. -/
def findAllList (tag : String) : List HtmlNode → List HtmlNode
  | [] => []
  | n :: ns => findAll tag n ++ findAllList tag ns

end

/-- The external world an extraction run sees, one entry per mechanism
the code calls.  An Except.error stands for the call raising an
exception (newspaper download/parse failure, requests failure, timeout). -/
structure Network where
  newspaperText : String → Except Unit String
  getDoc : String → Except Unit HtmlNode

/-- newspaper_extract (app.py 59-64): Article(url).download().parse().text,
supplied by the environment; may raise. -/
def newspaper_extract (net : Network) (url : String) : Except Unit String :=
  net.newspaperText url

/-- bs4_extract (app.py 66-71): fetch the page, parse it, and return
" ".join(p.get_text() for p in soup.find_all("p")).  There is no
selector-based tier: every p element of the whole document contributes. -/
def bs4_extract (net : Network) (url : String) : Except Unit String :=
  match net.getDoc url with
  | .error e => .error e
  | .ok doc => .ok (String.intercalate " " ((findAll "p" doc).map getText))

/-- Which extraction mechanism produced a result.  The first and third
constructors are the ones app.py can produce; bs4Selector is the
selector tier the spec describes, present in the type so the spec's
claim about it can be stated. -/
inductive Method where
  | newspaper3k
  | bs4Selector (sel : String)
  | bs4AllParagraphs
deriving DecidableEq

/-- The acceptance test of the extraction loop (app.py 53):
if result and len(result.split()) > 50. -/
def accepts (r : String) : Bool :=
  (r != "") && decide (50 < wordCount r)

/-- The for-loop of extract_text_from_url (app.py 50-57): try each
method; a raised exception or a rejected result falls through to the
next method; exhaustion yields none. -/
def runChain : List (Except Unit String × Method) → Option (String × Method)
  | [] => none
  | (r, m) :: rest =>
    match r with
    | .error _ => runChain rest
    | .ok t => if accepts t then some (t, m) else runChain rest

/-- extract_text_from_url (app.py 39-57) with each outcome labelled by
the method that produced it: extraction_methods = [newspaper_extract,
bs4_extract], tried in that order. -/
def extract_with_method (net : Network) (url : String) : Option (String × Method) :=
  runChain [(newspaper_extract net url, Method.newspaper3k),
            (bs4_extract net url, Method.bs4AllParagraphs)]

/-- extract_text_from_url as the caller sees it: just the text,
none on exhaustion. -/
def extract_text_from_url (net : Network) (url : String) : Option String :=
  (extract_with_method net url).map Prod.fst

/-- The model state loaded once at app.py line 28 (log_model,
tfidf_vectorizer): the vectorizer transform into feature vectors of some
type v, the predicted class id (1 = real), and the two-class
predict_proba distribution, as rationals. -/
structure Model (v : Type) where
  transform : String → v
  predict : v → Nat
  predictProba : v → ℚ × ℚ

/-- classify_article (app.py 31-36): vectorize the text, return the
predicted class id and the probability pair. -/
def classify_article (m : Model v) (text : String) : Nat × (ℚ × ℚ) :=
  let vect := m.transform text
  (m.predict vect, m.predictProba vect)

/-- classify_article in state-passing form: the source never rebinds the
module-level log_model or tfidf_vectorizer after line 28, and the body
of classify_article only calls their methods, so the global model state
after a call is the state before it. -/
def classify_article_st (m : Model v) (text : String) : (Nat × (ℚ × ℚ)) × Model v :=
  (classify_article m text, m)

/-- The label vocabulary of the spec's ClassificationResult. -/
inductive Label where
  | real
  | fake
  | uncertain
deriving DecidableEq

/-- The source vocabulary of the spec's ClassificationResult. -/
inductive Source where
  | statistical
  | heuristic
  | domainList
deriving DecidableEq

/-- The spec's ClassificationResult.  confidence is on the probability
scale in [0,1]; app.py line 174 displays round(confidence * 100, 2)
percent, which is presentation only. -/
structure ClassificationResult where
  label : Label
  confidence : ℚ
  source : Source
deriving DecidableEq

/-- The result app.py builds in main (lines 173-185): label Real iff
prediction == 1, else Fake; confidence = max(probabilities).  The code
has exactly this one path, so the source is always the statistical
classifier. -/
def analyzeText (m : Model v) (text : String) : ClassificationResult :=
  let pr := classify_article m text
  { label := if pr.1 = 1 then Label.real else Label.fake
    confidence := max pr.2.1 pr.2.2
    source := Source.statistical }

/-- Outcome of pressing Analyze: the blank-input warning of app.py
line 163-164, or a classification result. -/
inductive Outcome where
  | warning
  | result (r : ClassificationResult)
deriving DecidableEq

/-- The Analyze branch of main (app.py 162-174): a blank text_input is
rejected with a warning before classify_article is reached; otherwise
the text is classified. -/
def analyze (m : Model v) (text : String) : Outcome :=
  if pyBlank text then Outcome.warning else Outcome.result (analyzeText m text)

/-- The spec's ArticleSource: raw text from the first tab, or a URL in
the second tab (with the text tab left empty). -/
inductive ArticleSource where
  | rawText (s : String)
  | url (u : String)

/-- The spec's classify entry point as app.py implements it: a URL goes
straight to the extraction chain (main, lines 143-150); on extraction
failure text_input stays empty, so Analyze shows the warning; raw text
goes straight to the Analyze branch.  No domain list is consulted
anywhere. -/
def classify (net : Network) (m : Model v) : ArticleSource → Outcome
  | .rawText s => analyze m s
  | .url u =>
    match extract_text_from_url net u with
    | some t => analyze m t
    | none => analyze m ""

/-! Concrete fixtures used by counterexamples and witnesses. -/

/-- A text of n words, each the single letter w. -/
def repWords : Nat → String
  | 0 => ""
  | 1 => "w"
  | n + 2 => "w " ++ repWords (n + 1)

/-- A model whose vectorizer ignores the text and whose classifier is
constant: enough to instantiate environment-polymorphic theorems. -/
def constModel (pred : Nat) (p q : ℚ) : Model Unit :=
  { transform := fun _ => ()
    predict := fun _ => pred
    predictProba := fun _ => (p, q) }

/-- Network where the newspaper3k extractor yields a 60-word article and
the raw fetch fails. -/
def netBBC : Network :=
  { newspaperText := fun _ => Except.ok (repWords 60)
    getDoc := fun _ => Except.error () }

/-- Network where every mechanism raises. -/
def netDead : Network :=
  { newspaperText := fun _ => Except.error ()
    getDoc := fun _ => Except.error () }

/-- Network where the newspaper3k extractor yields exactly 50 words and
the raw fetch fails. -/
def net50 : Network :=
  { newspaperText := fun _ => Except.ok (repWords 50)
    getDoc := fun _ => Except.error () }

/-- Classifier that predicts class 1 with probabilities (4/5, 1/5). -/
def modelReal : Model Unit := constModel 1 (4/5) (1/5)

/-- Classifier that predicts class 1 with probabilities (7/10, 3/10). -/
def modelScam : Model Unit := constModel 1 (7/10) (3/10)

/-- Classifier that predicts class 1 with a bare-majority confidence of
11/20 = 0.55, below the canonical 0.65 threshold of the spec. -/
def modelLow : Model Unit := constModel 1 (11/20) (9/20)

/-- The short inflammatory snippet of the spec, 10 words, containing the
keyword scam. -/
def scamText : String := "This is a total scam and fraud, wake up sheeple"

/-- A small plain text input. -/
def newsText : String := "parliament passed the measure on tuesday"

/-- An HTML document whose article container holds a single paragraph of
80 words, plus one stray paragraph outside it. -/
def articleDoc : HtmlNode :=
  HtmlNode.elem "html"
    [HtmlNode.elem "body"
      [HtmlNode.elem "article" [HtmlNode.elem "p" [HtmlNode.txt (repWords 80)]],
       HtmlNode.elem "p" [HtmlNode.txt "about the author"]]]

/-- Network for the spec's extraction-chain scenario: the primary
extractor yields 10 words, the fetched page is articleDoc. -/
def netC4 : Network :=
  { newspaperText := fun _ => Except.ok (repWords 10)
    getDoc := fun _ => Except.ok articleDoc }

/-! Helper lemmas shared by several claims. -/

/-- The Analyze branch on a non-blank text reaches the classifier. -/
theorem analyze_not_blank {v : Type} (m : Model v) (t : String)
    (h : pyBlank t = false) :
    analyze m t = Outcome.result (analyzeText m t) := by
  simp [analyze, h]

/-- Whatever runChain returns passed the acceptance test. -/
theorem runChain_some_accepts :
    ∀ (l : List (Except Unit String × Method)) (t : String) (mth : Method),
      runChain l = some (t, mth) → accepts t = true := by
  intro l
  induction l with
  | nil => intro t mth h; simp [runChain] at h
  | cons p rest ih =>
    intro t mth h
    obtain ⟨r, m⟩ := p
    cases r with
    | error e => exact ih t mth (by simpa [runChain] using h)
    | ok s =>
      by_cases ha : accepts s
      · simp [runChain, ha] at h
        obtain ⟨h1, h2⟩ := h
        subst h1
        exact ha
      · exact ih t mth (by simpa [runChain, ha] using h)

/-- The method label of a runChain result is drawn from the chain. -/
theorem runChain_method_mem :
    ∀ (l : List (Except Unit String × Method)) (t : String) (mth : Method),
      runChain l = some (t, mth) → mth ∈ l.map Prod.snd := by
  intro l
  induction l with
  | nil => intro t mth h; simp [runChain] at h
  | cons p rest ih =>
    intro t mth h
    obtain ⟨r, m⟩ := p
    cases r with
    | error e =>
      exact List.mem_cons_of_mem _ (ih t mth (by simpa [runChain] using h))
    | ok s =>
      by_cases ha : accepts s
      · simp [runChain, ha] at h
        simp [h.2]
      · exact List.mem_cons_of_mem _ (ih t mth (by simpa [runChain, ha] using h))

/-- Passing the acceptance test means strictly more than 50 words. -/
theorem accepts_words {t : String} (h : accepts t = true) : 50 < wordCount t := by
  unfold accepts at h
  exact of_decide_eq_true ((Bool.and_eq_true _ _).mp h).2

/-- C5: the claim says a result of exactly 50 words is accepted by the
extraction chain.  The code checks len(result.split()) > 50, next to its
own comment saying Minimum 50 words, so a 50-word result falls through
every method and extraction fails: evaluating the chain on a primary
extractor that returns exactly 50 words yields none. -/
theorem C5_fifty_words_rejected :
    wordCount (repWords 50) = 50
    ∧ extract_text_from_url net50 "https://example.com/b" = none := by
  constructor
  · decide
  · decide

/-- C6: no exception raised by an individual extraction method escapes
the chain.  With the newspaper3k extractor raising: if the raw fetch
also raises the chain returns absence (none), and if the raw fetch
succeeds the chain recovers and returns the bs4 paragraph join whenever
it is long enough, none otherwise; no error value ever propagates. -/
theorem C6_no_exception_escapes (net : Network) (u : String)
    (h1 : net.newspaperText u = Except.error ()) :
    (net.getDoc u = Except.error () → extract_text_from_url net u = none)
    ∧ ∀ d, net.getDoc u = Except.ok d →
        extract_text_from_url net u =
          (if accepts (String.intercalate " " ((findAll "p" d).map getText))
           then some (String.intercalate " " ((findAll "p" d).map getText))
           else none) := by
  constructor
  · intro h2
    simp [extract_text_from_url, extract_with_method, runChain,
      newspaper_extract, bs4_extract, h1, h2]
  · intro d h2
    by_cases ha : accepts (String.intercalate " " ((findAll "p" d).map getText)) <;>
      simp [extract_text_from_url, extract_with_method, runChain,
        newspaper_extract, bs4_extract, h1, h2, ha]

/-- Closed instance of C6: with both mechanisms raising, the chain
reports absence rather than an error. -/
theorem C6_witness : extract_text_from_url netDead "https://example.com/c" = none :=
  (C6_no_exception_escapes netDead "https://example.com/c" rfl).1 rfl

/-- C7: a blank (empty or whitespace-only) text input is rejected with
the warning of app.py line 164 before classify_article runs: the
outcome is the warning for every model and every network state. -/
theorem C7_blank_rejected {v : Type} (m : Model v) (t : String)
    (h : pyBlank t = true) :
    analyze m t = Outcome.warning
    ∧ ∀ net : Network, classify net m (ArticleSource.rawText t) = Outcome.warning := by
  have hw : analyze m t = Outcome.warning := by simp [analyze, h]
  exact ⟨hw, fun net => hw⟩

/-- Closed instance of C7 at a whitespace-only input. -/
theorem C7_witness :
    analyze modelScam "  \t\n " = Outcome.warning
    ∧ ∀ net : Network,
        classify net modelScam (ArticleSource.rawText "  \t\n ") = Outcome.warning :=
  C7_blank_rejected modelScam "  \t\n " (by decide)

/-- C9: classification is deterministic and leaves the module-level
model state unchanged: running classify_article in state-passing form
twice on the same text gives the same prediction and probabilities, and
the global state after the first call is the state loaded at startup. -/
theorem C9_idempotent {v : Type} (m : Model v) (t : String) :
    (classify_article_st (classify_article_st m t).2 t).1 = (classify_article_st m t).1
    ∧ (classify_article_st m t).2 = m :=
  ⟨rfl, rfl⟩

/-- C10: whenever extract_text_from_url returns a text at all, that text
has strictly more than 50 whitespace-separated words; shorter text is
never handed onward from URL extraction. -/
theorem C10_extracted_text_long (net : Network) (u : String) (t : String)
    (h : extract_text_from_url net u = some t) :
    50 < wordCount t := by
  unfold extract_text_from_url at h
  rcases Option.map_eq_some'.mp h with ⟨⟨s, mth⟩, hrun, hfst⟩
  have := runChain_some_accepts _ s mth hrun
  rw [show s = t from hfst] at this
  exact accepts_words this

/-- Closed instance of C10 at a network whose primary extractor yields
60 words. -/
theorem C10_witness : 50 < wordCount (repWords 60) :=
  C10_extracted_text_long netBBC "https://example.com/d" (repWords 60) (by decide)

/-- C1: the claim says a URL with a trusted host (the spec names
https://bbc.com/news/x) short-circuits to Real / confidence 1.0 /
source DomainList without invoking any extractor.  The code has no
domain lists: at that very URL the result comes from the extraction
chain and the statistical model (confidence 4/5, source Statistical,
not 1.0 / DomainList), and when every network mechanism fails the same
URL produces no result at all, so the extractors are what decides. -/
theorem C1_counterexample :
    classify netBBC modelReal (ArticleSource.url "https://www.bbc.com/news/x")
      = Outcome.result
          { label := Label.real, confidence := 4/5, source := Source.statistical }
    ∧ classify netDead modelReal (ArticleSource.url "https://www.bbc.com/news/x")
      = Outcome.warning
    ∧ Source.statistical ≠ Source.domainList
    ∧ ((4 : ℚ)/5) ≠ 1 := by
  refine ⟨?_, ?_, by simp, by norm_num⟩
  · have hex : extract_text_from_url netBBC "https://www.bbc.com/news/x"
        = some (repWords 60) := by decide
    have hb : pyBlank (repWords 60) = false := by decide
    simp [classify, hex, analyze, hb, analyzeText, classify_article,
      modelReal, constModel]
    norm_num
  · have hex : extract_text_from_url netDead "https://www.bbc.com/news/x" = none := by
      decide
    simp [classify, hex, analyze, pyBlank]

/-- C1 amended: app.py consults no domain list for any URL; every URL
goes through the extraction chain, and any classification it yields has
source Statistical, never DomainList. -/
theorem C1_amended {v : Type} (net : Network) (m : Model v) (u : String)
    (r : ClassificationResult)
    (h : classify net m (ArticleSource.url u) = Outcome.result r) :
    r.source = Source.statistical ∧ r.source ≠ Source.domainList := by
  have key : ∀ t, analyze m t = Outcome.result r → r.source = Source.statistical := by
    intro t ht
    by_cases hb : pyBlank t = true
    · simp [analyze, hb] at ht
    · rw [analyze_not_blank m t (by simpa using hb)] at ht
      injection ht with ht2
      rw [← ht2]
      rfl
  have hs : r.source = Source.statistical := by
    have h2 : (match extract_text_from_url net u with
        | some t => analyze m t
        | none => analyze m "") = Outcome.result r := h
    cases hex : extract_text_from_url net u with
    | none => rw [hex] at h2; exact key "" h2
    | some t => rw [hex] at h2; exact key t h2
  exact ⟨hs, by rw [hs]; simp⟩

/-- Closed instance of the amended C1 at a concrete URL, network and
model. -/
theorem C1_amended_witness :
    ({ label := Label.real, confidence := 4/5, source := Source.statistical } :
        ClassificationResult).source = Source.statistical :=
  (C1_amended netBBC modelReal "https://www.bbc.com/news/x" _ (by
    have hex : extract_text_from_url netBBC "https://www.bbc.com/news/x"
        = some (repWords 60) := by decide
    have hb : pyBlank (repWords 60) = false := by decide
    simp [classify, hex, analyze, hb, analyzeText, classify_article,
      modelReal, constModel]
    norm_num)).1

/-- C2: the claim says a sub-50-word text containing an alarm keyword
such as scam is short-circuited to Fake / 0.9 / Heuristic without the
statistical classifier running.  The code has no heuristic overlay: on
the 10-word scam snippet the statistical classifier runs and its output
is what is returned (here Real / 7/10 / Statistical), not the claimed
heuristic result. -/
theorem C2_counterexample :
    wordCount scamText < 50
    ∧ containsKeyword "scam" scamText = true
    ∧ analyze modelScam scamText
        = Outcome.result
            { label := Label.real, confidence := 7/10, source := Source.statistical }
    ∧ ({ label := Label.real, confidence := 7/10, source := Source.statistical } :
          ClassificationResult)
        ≠ { label := Label.fake, confidence := 9/10, source := Source.heuristic } := by
  refine ⟨by decide, by decide, ?_, by simp⟩
  have hb : pyBlank scamText = false := by decide
  simp [analyze, hb, analyzeText, classify_article, modelScam, constModel]
  norm_num

/-- C2 amended: app.py applies no keyword or length heuristic; every
non-blank text, however short or inflammatory, is classified by the
statistical model and the result's source is Statistical. -/
theorem C2_amended {v : Type} (m : Model v) (t : String)
    (h : pyBlank t = false) :
    analyze m t = Outcome.result (analyzeText m t)
    ∧ (analyzeText m t).source = Source.statistical :=
  ⟨analyze_not_blank m t h, rfl⟩

/-- Closed instance of the amended C2 at the scam snippet. -/
theorem C2_amended_witness :
    analyze modelScam scamText = Outcome.result (analyzeText modelScam scamText)
    ∧ (analyzeText modelScam scamText).source = Source.statistical :=
  C2_amended modelScam scamText (by decide)

/-- C3: the claim says a statistical confidence strictly below 0.65
yields the label Uncertain.  The code has no confidence threshold and
no Uncertain outcome: with a classifier at confidence 11/20 = 0.55 the
returned label is the argmax class Real. -/
theorem C3_counterexample :
    analyze modelLow newsText
      = Outcome.result
          { label := Label.real, confidence := 11/20, source := Source.statistical }
    ∧ ((11 : ℚ)/20) < 13/20
    ∧ Label.real ≠ Label.uncertain := by
  refine ⟨?_, by norm_num, by simp⟩
  have hb : pyBlank newsText = false := by decide
  simp [analyze, hb, analyzeText, classify_article, modelLow, constModel]
  norm_num

/-- C3 amended: app.py applies no confidence threshold at all: for
every model and text the statistical label is the argmax class (Real
when the prediction is 1, Fake otherwise) with confidence equal to the
larger probability, and Uncertain is never produced. -/
theorem C3_amended {v : Type} (m : Model v) (t : String) :
    (analyzeText m t).label ≠ Label.uncertain
    ∧ ((classify_article m t).1 = 1 → (analyzeText m t).label = Label.real)
    ∧ ((classify_article m t).1 ≠ 1 → (analyzeText m t).label = Label.fake)
    ∧ (analyzeText m t).confidence
        = max (classify_article m t).2.1 (classify_article m t).2.2 := by
  refine ⟨?_, ?_, ?_, rfl⟩ <;>
    by_cases h1 : (classify_article m t).1 = 1 <;>
      simp [analyzeText, h1]

/-- Closed instance of the amended C3 at the low-confidence model: the
argmax label Real is returned, not Uncertain. -/
theorem C3_amended_witness :
    (analyzeText modelLow newsText).label = Label.real
    ∧ (analyzeText modelLow newsText).label ≠ Label.uncertain :=
  ⟨(C3_amended modelLow newsText).2.1 (by decide),
   (C3_amended modelLow newsText).1⟩

set_option maxRecDepth 40000 in
/-- C4: the claim says the secondary extractor tries content-container
selectors such as article before falling back to whole-document
paragraph concatenation, so that with a 10-word primary result and an
80-word article container the method is the selector tier.  The code's
bs4_extract has no selector tier: in exactly that scenario the result
is produced by the whole-document paragraph join (and even includes the
stray paragraph outside the article container). -/
theorem C4_counterexample :
    wordCount (repWords 10) = 10
    ∧ (findAll "article" articleDoc).length = 1
    ∧ wordCount (getTextList (findAll "article" articleDoc)) = 80
    ∧ (extract_with_method netC4 "https://example.com/a").map Prod.snd
        = some Method.bs4AllParagraphs
    ∧ extract_with_method netC4 "https://example.com/a"
        = some (repWords 80 ++ " about the author", Method.bs4AllParagraphs)
    ∧ some Method.bs4AllParagraphs ≠ some (Method.bs4Selector "article") := by
  refine ⟨by decide, by decide, by decide, by decide, by decide, by simp⟩

/-- C4 amended: the ordering of the chain holds (the primary
newspaper3k extractor always attempts first, and when it succeeds with
an acceptable text the secondary never runs), but the secondary has no
selector tier: the only methods the chain can ever report are the
primary extractor and the whole-document paragraph join. -/
theorem C4_amended (net : Network) (u : String) (t : String) :
    (net.newspaperText u = Except.ok t → accepts t = true →
      extract_with_method net u = some (t, Method.newspaper3k))
    ∧ (∀ s mth, extract_with_method net u = some (s, mth) →
        mth = Method.newspaper3k ∨ mth = Method.bs4AllParagraphs) := by
  constructor
  · intro h1 h2
    simp [extract_with_method, runChain, newspaper_extract, h1, h2]
  · intro s mth h
    have := runChain_method_mem _ s mth h
    simpa using this

/-- Closed instance of the amended C4: a successful 60-word primary
extraction is returned with the newspaper3k method label, the secondary
never consulted. -/
theorem C4_amended_witness :
    extract_with_method netBBC "https://example.com/e"
      = some (repWords 60, Method.newspaper3k) :=
  (C4_amended netBBC "https://example.com/e" (repWords 60)).1 rfl (by decide)

/-- C8: under the model contract (two-class distribution: probabilities
non-negative and summing to 1), the confidence of a statistical result,
the larger of the two probabilities, lies in [1/2, 1]. -/
theorem C8_confidence_bounds {v : Type} (m : Model v) (t : String)
    (hsum : ∀ x : v, (m.predictProba x).1 + (m.predictProba x).2 = 1)
    (hp : ∀ x : v, 0 ≤ (m.predictProba x).1)
    (hq : ∀ x : v, 0 ≤ (m.predictProba x).2) :
    1/2 ≤ (analyzeText m t).confidence ∧ (analyzeText m t).confidence ≤ 1 := by
  have hc : (analyzeText m t).confidence
      = max (m.predictProba (m.transform t)).1 (m.predictProba (m.transform t)).2 := rfl
  have h1 := hsum (m.transform t)
  have h2 := hp (m.transform t)
  have h3 := hq (m.transform t)
  rw [hc]
  rcases max_cases (m.predictProba (m.transform t)).1
      (m.predictProba (m.transform t)).2 with ⟨hm, hge⟩ | ⟨hm, hge⟩ <;>
    rw [hm] <;> constructor <;> linarith

/-- Closed instance of C8 at the (7/10, 3/10) model. -/
theorem C8_witness :
    1/2 ≤ (analyzeText modelScam newsText).confidence
    ∧ (analyzeText modelScam newsText).confidence ≤ 1 :=
  C8_confidence_bounds modelScam newsText
    (fun x => by norm_num [modelScam, constModel])
    (fun x => by norm_num [modelScam, constModel])
    (fun x => by norm_num [modelScam, constModel])

end FakeNewsApp
